import Mathlib

/-
Shallow embedding of the review-analysis pipeline of the
enterpret-launch-analyzer repository (Go):

  - data model (models.go / src/unnamed/part_000)
  - aggregator: calculateSentimentSummary, calculateSentimentShift
  - response sanitizer: cleanJSONResponse, removePrefix, removeSuffix
  - CSV parser: ParseCSV
  - inference gateway: AnalyzeSentiments, ExtractThemes (provider call
    abstracted as an explicit function argument, call log made explicit)
  - orchestrator: Analyze

Go strings handled byte-by-byte are modelled as List Char; Go int as Int;
Go float64 arithmetic on small integer inputs as ℚ.
-/

/-- A single customer review (struct Review in the Go source). -/
structure Review where
  id : String
  date : String
  userId : String
  reviewText : String
  rating : Int
  source : String
  deriving Repr, DecidableEq

/-- Sentiment analysis result for one review (struct SentimentResult). -/
structure SentimentResult where
  reviewId : String
  sentiment : String
  score : ℚ
  deriving Repr, DecidableEq

/-- Aggregated sentiment statistics (struct SentimentSummary). -/
structure SentimentSummary where
  positive : Int
  negative : Int
  neutral : Int
  average : ℚ
  deriving Repr, DecidableEq

/-- An extracted theme (struct ThemeResult). -/
structure ThemeResult where
  theme : String
  preCount : Int
  postCount : Int
  changeRate : ℚ
  sentiment : String
  deriving Repr, DecidableEq

/-- A named batch of reviews with metadata (struct ReviewCollection). -/
structure ReviewCollection where
  reviews : List Review
  type : String
  count : Int
  deriving Repr, DecidableEq

/-- Pre vs post launch comparison (struct ComparisonResult). -/
structure ComparisonResult where
  preLaunchSentiment : SentimentSummary
  postLaunchSentiment : SentimentSummary
  sentimentShift : ℚ
  themes : List ThemeResult
  deriving Repr, DecidableEq

/-- Narrative verdict (struct ImpactSummary). -/
structure ImpactSummary where
  overallSuccess : Bool
  successScore : ℚ
  keyImprovements : List String
  criticalIssues : List String
  recommendations : List String
  executiveSummary : String
  deriving Repr, DecidableEq

/-- The complete analysis response (struct AnalysisResult). -/
structure AnalysisResult where
  preLaunchReviews : ReviewCollection
  postLaunchReviews : ReviewCollection
  comparison : ComparisonResult
  impact : ImpactSummary
  analyzedAt : String
  deriving Repr, DecidableEq

/-- One step of the counting loop in calculateSentimentSummary: the Go
switch on s.Sentiment with cases "positive", "negative" and a default
bucket of neutral. -/
def bumpSentiment (acc : SentimentSummary) (s : SentimentResult) : SentimentSummary :=
  if s.sentiment = "positive" then { acc with positive := acc.positive + 1 }
  else if s.sentiment = "negative" then { acc with negative := acc.negative + 1 }
  else { acc with neutral := acc.neutral + 1 }

/-- calculateSentimentSummary from the Go source: counts each sentiment
category and computes the average rating over the review list (left at the
zero value 0 when the review list is empty). -/
def calculateSentimentSummary (sentiments : List SentimentResult) (reviews : List Review) : SentimentSummary :=
  let counted := sentiments.foldl bumpSentiment { positive := 0, negative := 0, neutral := 0, average := 0 }
  if 0 < reviews.length then
    { counted with average := ((reviews.foldl (fun t r => t + r.rating) 0 : Int) : ℚ) / (reviews.length : ℚ) }
  else counted

/-- calculateSentimentShift from the Go source: the percentage-point change
of the positive rate, 0 when either side's total is 0. -/
def calculateSentimentShift (pre post : SentimentSummary) : ℚ :=
  let preTotal := pre.positive + pre.negative + pre.neutral
  let postTotal := post.positive + post.negative + post.neutral
  if preTotal = 0 ∨ postTotal = 0 then 0
  else
    let prePositiveRate := (pre.positive : ℚ) / ((preTotal : Int) : ℚ) * 100
    let postPositiveRate := (post.positive : ℚ) / ((postTotal : Int) : ℚ) * 100
    postPositiveRate - prePositiveRate

/-- The counting loop never touches the average field. -/
lemma foldl_bumpSentiment_average (l : List SentimentResult) (acc : SentimentSummary) :
    (l.foldl bumpSentiment acc).average = acc.average := by
  induction l generalizing acc with
  | nil => rfl
  | cons s rest ih =>
      simp only [List.foldl_cons, ih]
      unfold bumpSentiment
      split <;> try rfl
      split <;> rfl

/-- Each loop step adds exactly one to the sum of the three counters. -/
lemma foldl_bumpSentiment_total (l : List SentimentResult) (acc : SentimentSummary) :
    (l.foldl bumpSentiment acc).positive + (l.foldl bumpSentiment acc).negative
      + (l.foldl bumpSentiment acc).neutral
      = acc.positive + acc.negative + acc.neutral + l.length := by
  induction l generalizing acc with
  | nil => simp
  | cons s rest ih =>
      simp only [List.foldl_cons, ih, List.length_cons]
      unfold bumpSentiment
      split
      · simp; ring
      · split
        · simp; ring
        · simp; ring

/-- The neutral counter counts exactly the results that are neither
"positive" nor "negative". -/
lemma foldl_bumpSentiment_neutral (l : List SentimentResult) (acc : SentimentSummary) :
    (l.foldl bumpSentiment acc).neutral
      = acc.neutral
        + (l.filter (fun s => ¬(s.sentiment = "positive" ∨ s.sentiment = "negative"))).length := by
  induction l generalizing acc with
  | nil => simp
  | cons s rest ih =>
      simp only [List.foldl_cons, ih]
      by_cases hp : s.sentiment = "positive"
      · simp [bumpSentiment, hp, List.filter_cons]
      · by_cases hn : s.sentiment = "negative"
        · simp [bumpSentiment, hp, hn, List.filter_cons]
        · simp [bumpSentiment, hp, hn, List.filter_cons]
          ring

/-- Accumulating ratings with foldl equals the list sum. -/
lemma foldl_rating_sum (l : List Review) (t : Int) :
    l.foldl (fun t r => t + r.rating) t = t + (l.map Review.rating).sum := by
  induction l generalizing t with
  | nil => simp
  | cons r rest ih =>
      simp only [List.foldl_cons, List.map_cons, List.sum_cons, ih]
      ring

/-- C1: Compute shift returns 0 when either side's total classified count
(positive+negative+neutral) is 0; otherwise it returns the post-side
positive rate minus the pre-side positive rate, where each side's positive
rate is positive/(positive+negative+neutral)*100 over that side's own
total. -/
theorem computeShift_spec (pre post : SentimentSummary) :
    calculateSentimentShift pre post =
      if pre.positive + pre.negative + pre.neutral = 0
          ∨ post.positive + post.negative + post.neutral = 0 then 0
      else (post.positive : ℚ) / ((post.positive + post.negative + post.neutral : Int) : ℚ) * 100
            - (pre.positive : ℚ) / ((pre.positive + pre.negative + pre.neutral : Int) : ℚ) * 100 :=
  rfl

/-- C2: Summarize counts sum exactly to the number of sentiment results
consumed; every sentiment value other than exactly "positive"/"negative"
is bucketed as neutral; the average rating is sum(ratings)/count and 0 for
an empty review list. -/
theorem summarize_spec (sentiments : List SentimentResult) (reviews : List Review) :
    (calculateSentimentSummary sentiments reviews).positive
        + (calculateSentimentSummary sentiments reviews).negative
        + (calculateSentimentSummary sentiments reviews).neutral = sentiments.length
      ∧ (calculateSentimentSummary sentiments reviews).neutral
          = (sentiments.filter
              (fun s => ¬(s.sentiment = "positive" ∨ s.sentiment = "negative"))).length
      ∧ (calculateSentimentSummary sentiments reviews).average
          = if reviews = [] then 0
            else (((reviews.map Review.rating).sum : Int) : ℚ) / (reviews.length : ℚ) := by
  unfold calculateSentimentSummary
  by_cases h : 0 < reviews.length
  · have hne : ¬(reviews = []) := by
      intro he
      rw [he] at h
      simp at h
    simp only [h, if_pos, hne, if_neg, not_false_iff]
    refine ⟨?_, ?_, ?_⟩
    · have := foldl_bumpSentiment_total sentiments
        { positive := 0, negative := 0, neutral := 0, average := 0 }
      simpa using this
    · have := foldl_bumpSentiment_neutral sentiments
        { positive := 0, negative := 0, neutral := 0, average := 0 }
      simpa using this
    · simp [foldl_rating_sum]
  · have he : reviews = [] := by
      cases reviews with
      | nil => rfl
      | cons a l => simp at h
    simp only [h, if_neg, not_false_iff, he, if_pos]
    refine ⟨?_, ?_, ?_⟩
    · have := foldl_bumpSentiment_total sentiments
        { positive := 0, negative := 0, neutral := 0, average := 0 }
      simpa using this
    · have := foldl_bumpSentiment_neutral sentiments
        { positive := 0, negative := 0, neutral := 0, average := 0 }
      simpa using this
    · simp [foldl_bumpSentiment_average]

/-- C9: with non-negative counts the sentiment shift lies in [-100, 100]. -/
theorem shift_bounded (pre post : SentimentSummary)
    (hp1 : 0 ≤ pre.positive) (hp2 : 0 ≤ pre.negative) (hp3 : 0 ≤ pre.neutral)
    (hq1 : 0 ≤ post.positive) (hq2 : 0 ≤ post.negative) (hq3 : 0 ≤ post.neutral) :
    -100 ≤ calculateSentimentShift pre post ∧ calculateSentimentShift pre post ≤ 100 := by
  unfold calculateSentimentShift
  by_cases h : pre.positive + pre.negative + pre.neutral = 0
      ∨ post.positive + post.negative + post.neutral = 0
  · simp only [h, if_pos]
    norm_num
  · simp only [h, if_neg, not_false_iff]
    push_neg at h
    obtain ⟨h1, h2⟩ := h
    have ht1 : (0 : Int) < pre.positive + pre.negative + pre.neutral := by
      rcases lt_or_eq_of_le (by positivity : (0 : Int) ≤ pre.positive + pre.negative + pre.neutral) with hlt | heq
      · exact hlt
      · exact absurd heq.symm h1
    have ht2 : (0 : Int) < post.positive + post.negative + post.neutral := by
      rcases lt_or_eq_of_le (by positivity : (0 : Int) ≤ post.positive + post.negative + post.neutral) with hlt | heq
      · exact hlt
      · exact absurd heq.symm h2
    have hq1' : (0 : ℚ) < ((pre.positive + pre.negative + pre.neutral : Int) : ℚ) := by
      exact_mod_cast ht1
    have hq2' : (0 : ℚ) < ((post.positive + post.negative + post.neutral : Int) : ℚ) := by
      exact_mod_cast ht2
    have hr1lo : (0 : ℚ) ≤ (pre.positive : ℚ) / ((pre.positive + pre.negative + pre.neutral : Int) : ℚ) * 100 := by
      apply mul_nonneg _ (by norm_num)
      apply div_nonneg _ (le_of_lt hq1')
      exact_mod_cast hp1
    have hr2lo : (0 : ℚ) ≤ (post.positive : ℚ) / ((post.positive + post.negative + post.neutral : Int) : ℚ) * 100 := by
      apply mul_nonneg _ (by norm_num)
      apply div_nonneg _ (le_of_lt hq2')
      exact_mod_cast hq1
    have hr1hi : (pre.positive : ℚ) / ((pre.positive + pre.negative + pre.neutral : Int) : ℚ) * 100 ≤ 100 := by
      have hle : (pre.positive : ℚ) / ((pre.positive + pre.negative + pre.neutral : Int) : ℚ) ≤ 1 := by
        rw [div_le_one hq1']
        have : pre.positive ≤ pre.positive + pre.negative + pre.neutral := by linarith
        exact_mod_cast this
      nlinarith
    have hr2hi : (post.positive : ℚ) / ((post.positive + post.negative + post.neutral : Int) : ℚ) * 100 ≤ 100 := by
      have hle : (post.positive : ℚ) / ((post.positive + post.negative + post.neutral : Int) : ℚ) ≤ 1 := by
        rw [div_le_one hq2']
        have : post.positive ≤ post.positive + post.negative + post.neutral := by linarith
        exact_mod_cast this
      nlinarith
    constructor
    · linarith
    · linarith

/-- Witness for C9 at a concrete pair of summaries. -/
theorem shift_bounded_witness :
    -100 ≤ calculateSentimentShift ⟨1, 1, 0, 3⟩ ⟨2, 0, 0, 5⟩
      ∧ calculateSentimentShift ⟨1, 1, 0, 3⟩ ⟨2, 0, 0, 5⟩ ≤ 100 :=
  shift_bounded ⟨1, 1, 0, 3⟩ ⟨2, 0, 0, 5⟩ (by norm_num) (by norm_num) (by norm_num)
    (by norm_num) (by norm_num) (by norm_num)

/-- Whitespace bytes stripped around markers by the Go sanitizer helpers:
space, newline, tab. -/
def isStripChar (c : Char) : Bool :=
  c = ' ' || c = '\n' || c = '\t'

/-- The leading-whitespace strip loop shared by the Go sanitizer helpers
(applied to the reversed string for the trailing strip). -/
def stripLeading : List Char → List Char
  | [] => []
  | c :: rest => if isStripChar c then stripLeading rest else c :: rest

/-- The trailing-whitespace strip loop of removeSuffix in gemini.go. -/
def stripTrailing (s : List Char) : List Char :=
  (stripLeading s.reverse).reverse

/-- The removePrefix helper of gemini.go (named removePre here): strip
leading whitespace, then drop the marker when the remaining bytes start
with it, else return the stripped bytes. -/
def removePre (s pre : List Char) : List Char :=
  if (stripLeading s).take pre.length = pre then (stripLeading s).drop pre.length
  else stripLeading s

/-- removeSuffix from gemini.go: strip trailing whitespace, then drop the
marker when the remaining bytes end with it, else return the stripped
bytes. -/
def removeSuffix (s suf : List Char) : List Char :=
  if (stripTrailing s).drop ((stripTrailing s).length - suf.length) = suf
  then (stripTrailing s).take ((stripTrailing s).length - suf.length)
  else stripTrailing s

/-- The backtick byte. -/
def backtick : Char := ("`").toList.headI

/-- The plain code-fence marker stripped by the sanitizer. -/
def fenceMark : List Char := ("```").toList

/-- The json-tagged code-fence marker stripped by the sanitizer. -/
def fenceMarkJson : List Char := ("```json").toList

/-- cleanJSONResponse from gemini.go: remove a possible leading json-tagged
or plain fence marker and a trailing fence marker. -/
def cleanJSONResponse (response : List Char) : List Char :=
  removeSuffix (removePre (removePre response fenceMarkJson) fenceMark) fenceMark

lemma fenceMark_eq : fenceMark = backtick :: backtick :: backtick :: [] := rfl

lemma fenceMarkJson_eq : fenceMarkJson = fenceMark ++ ("json").toList := rfl

lemma take_len_append (a b : List Char) : (a ++ b).take a.length = a := by
  induction a with
  | nil => rfl
  | cons c t ih => simp [ih]

lemma drop_len_append (a b : List Char) : (a ++ b).drop a.length = b := by
  induction a with
  | nil => rfl
  | cons c t ih => simp [ih]

lemma take_len_add_append (a b : List Char) (n : Nat) :
    (a ++ b).take (a.length + n) = a ++ b.take n := by
  induction a with
  | nil => simp
  | cons c t ih => simpa [Nat.succ_add] using ih

lemma stripLeading_append_ws (ws t : List Char) (h : ∀ c ∈ ws, isStripChar c = true) :
    stripLeading (ws ++ t) = stripLeading t := by
  induction ws with
  | nil => rfl
  | cons c ws ih =>
      have hc : isStripChar c = true := h c (by simp)
      have hrest : ∀ x ∈ ws, isStripChar x = true := fun x hx => h x (by simp [hx])
      simp [stripLeading, hc, ih hrest]

lemma stripLeading_cons_false (c : Char) (t : List Char) (h : isStripChar c = false) :
    stripLeading (c :: t) = c :: t := by
  simp [stripLeading, h]

lemma stripLeading_all_ws (l : List Char) (h : ∀ c ∈ l, isStripChar c = true) :
    stripLeading l = [] := by
  induction l with
  | nil => rfl
  | cons c t ih =>
      have hc : isStripChar c = true := h c (by simp)
      have hrest : ∀ x ∈ t, isStripChar x = true := fun x hx => h x (by simp [hx])
      simp [stripLeading, hc, ih hrest]

lemma removePre_of_strip_eq (s pre r : List Char) (h : stripLeading s = pre ++ r) :
    removePre s pre = r := by
  unfold removePre
  simp only [h, take_len_append, drop_len_append]
  simp

lemma removePre_of_strip_ne (s pre : List Char) (h : ¬ (stripLeading s).take pre.length = pre) :
    removePre s pre = stripLeading s := by
  unfold removePre
  rw [if_neg h]

lemma removeSuffix_of (s suf r : List Char) (h : stripTrailing s = r ++ suf) :
    removeSuffix s suf = r := by
  unfold removeSuffix
  have hl : (r ++ suf).length - suf.length = r.length := by simp
  simp only [h, hl, drop_len_append, take_len_append]
  simp

lemma removeSuffix_of_strip_nil (s suf : List Char) (hsuf : suf ≠ []) (h : stripTrailing s = []) :
    removeSuffix s suf = [] := by
  unfold removeSuffix
  rw [h]
  simp only [List.drop_nil, List.take_nil, List.length_nil]
  rw [if_neg (fun he => hsuf he.symm)]

lemma stripLeading_fenceMark_append (t : List Char) :
    stripLeading (fenceMark ++ t) = fenceMark ++ t := by
  rw [fenceMark_eq]
  simp only [List.cons_append, List.nil_append]
  exact stripLeading_cons_false _ _ (by decide)

lemma stripLeading_fenceMarkJson_append (t : List Char) :
    stripLeading (fenceMarkJson ++ t) = fenceMarkJson ++ t := by
  rw [fenceMarkJson_eq, fenceMark_eq]
  simp only [List.cons_append, List.nil_append]
  exact stripLeading_cons_false _ _ (by decide)

lemma stripTrailing_fence_ws (s ws : List Char) (hws : ∀ x ∈ ws, isStripChar x = true) :
    stripTrailing (s ++ fenceMark ++ ws) = s ++ fenceMark := by
  unfold stripTrailing
  have h1 : (s ++ fenceMark ++ ws).reverse = ws.reverse ++ (backtick :: backtick :: backtick :: s.reverse) := by
    simp [fenceMark_eq]
  have hwsrev : ∀ x ∈ ws.reverse, isStripChar x = true := by
    intro x hx
    exact hws x (List.mem_reverse.mp hx)
  rw [h1, stripLeading_append_ws _ _ hwsrev,
    stripLeading_cons_false _ _ (show isStripChar backtick = false by decide)]
  have h2 : backtick :: backtick :: backtick :: s.reverse = (s ++ fenceMark).reverse := by
    simp [fenceMark_eq]
  rw [h2, List.reverse_reverse]

/-- Side condition of the amended round-trip claim: the wrapped payload is
empty or starts with a byte that is neither strippable whitespace nor a
backtick. -/
def headSafe : List Char → Bool
  | [] => true
  | c :: _ => !(isStripChar c) && (c != backtick)

/-- If the first four bytes of payload ++ fence ++ whitespace read "json",
they came entirely from the payload. -/
lemma take4_append_fence (s ws2 : List Char)
    (h : (s ++ fenceMark ++ ws2).take 4 = ("json").toList) :
    s.take 4 = ("json").toList := by
  rw [show ("json").toList = ['j', 's', 'o', 'n'] from rfl] at h
  rcases s with _ | ⟨a, _ | ⟨b, _ | ⟨c, _ | ⟨d, t⟩⟩⟩⟩
  · rw [show ([] : List Char) ++ fenceMark ++ ws2
        = backtick :: backtick :: backtick :: ws2 from by simp [fenceMark_eq]] at h
    rw [show (backtick :: backtick :: backtick :: ws2).take 4
        = backtick :: backtick :: backtick :: ws2.take 1 from rfl] at h
    injection h with h1 _
    exact absurd h1 (by decide)
  · rw [show [a] ++ fenceMark ++ ws2
        = a :: backtick :: backtick :: backtick :: ws2 from by simp [fenceMark_eq]] at h
    rw [show (a :: backtick :: backtick :: backtick :: ws2).take 4
        = [a, backtick, backtick, backtick] from rfl] at h
    injection h with _ h2
    injection h2 with h2 _
    exact absurd h2 (by decide)
  · rw [show [a, b] ++ fenceMark ++ ws2
        = a :: b :: backtick :: backtick :: backtick :: ws2 from by simp [fenceMark_eq]] at h
    rw [show (a :: b :: backtick :: backtick :: backtick :: ws2).take 4
        = [a, b, backtick, backtick] from rfl] at h
    injection h with _ h2
    injection h2 with _ h3
    injection h3 with h3 _
    exact absurd h3 (by decide)
  · rw [show [a, b, c] ++ fenceMark ++ ws2
        = a :: b :: c :: backtick :: backtick :: backtick :: ws2 from by simp [fenceMark_eq]] at h
    rw [show (a :: b :: c :: backtick :: backtick :: backtick :: ws2).take 4
        = [a, b, c, backtick] from rfl] at h
    injection h with _ h2
    injection h2 with _ h3
    injection h3 with _ h4
    injection h4 with h4 _
    exact absurd h4 (by decide)
  · rw [show (a :: b :: c :: d :: t) ++ fenceMark ++ ws2
        = a :: b :: c :: d :: (t ++ fenceMark ++ ws2) from by simp] at h
    rw [show (a :: b :: c :: d :: (t ++ fenceMark ++ ws2)).take 4 = [a, b, c, d] from rfl] at h
    rw [show (a :: b :: c :: d :: t).take 4 = [a, b, c, d] from rfl]
    exact h

/-- C3 counterexample: the payload " hi" (leading space) wrapped in the
json-tagged leading marker and the trailing marker does not survive the
round trip: the sanitizer also strips the payload's own leading space. -/
theorem clean_roundtrip_cex :
    cleanJSONResponse (fenceMarkJson ++ (" hi").toList ++ fenceMark) ≠ (" hi").toList := by
  decide

/-- C3 amended: the round trip holds for a payload wrapped in fence markers
with surrounding whitespace provided the payload is empty or starts with a
byte that is neither whitespace nor a backtick (json-tagged leading
marker), respectively provided the payload does not start with the four
bytes "json" (plain leading marker). -/
theorem clean_roundtrip_amended (s ws1 ws2 : List Char)
    (hws1 : ∀ c ∈ ws1, isStripChar c = true)
    (hws2 : ∀ c ∈ ws2, isStripChar c = true) :
    (headSafe s = true →
        cleanJSONResponse (ws1 ++ fenceMarkJson ++ s ++ fenceMark ++ ws2) = s)
      ∧ (s.take 4 ≠ ("json").toList →
          cleanJSONResponse (ws1 ++ fenceMark ++ s ++ fenceMark ++ ws2) = s) := by
  constructor
  · intro hsafe
    have e1 : removePre (ws1 ++ fenceMarkJson ++ s ++ fenceMark ++ ws2) fenceMarkJson
        = s ++ fenceMark ++ ws2 := by
      apply removePre_of_strip_eq
      have hassoc : ws1 ++ fenceMarkJson ++ s ++ fenceMark ++ ws2
          = ws1 ++ (fenceMarkJson ++ (s ++ fenceMark ++ ws2)) := by
        simp [List.append_assoc]
      rw [hassoc, stripLeading_append_ws _ _ hws1, stripLeading_fenceMarkJson_append]
    rw [cleanJSONResponse, e1]
    cases s with
    | nil =>
        have e2 : removePre ([] ++ fenceMark ++ ws2) fenceMark = ws2 := by
          apply removePre_of_strip_eq
          simp only [List.nil_append]
          exact stripLeading_fenceMark_append ws2
        rw [e2]
        apply removeSuffix_of_strip_nil _ _ (by decide)
        unfold stripTrailing
        rw [stripLeading_all_ws _ (fun x hx => hws2 x (List.mem_reverse.mp hx))]
        rfl
    | cons c t =>
        have hc : isStripChar c = false ∧ ¬(c = backtick) := by
          simpa [headSafe] using hsafe
        have hst : stripLeading ((c :: t) ++ fenceMark ++ ws2) = (c :: t) ++ fenceMark ++ ws2 := by
          rw [show (c :: t) ++ fenceMark ++ ws2 = c :: (t ++ fenceMark ++ ws2) from by simp]
          exact stripLeading_cons_false _ _ hc.1
        have hne : ¬ (stripLeading ((c :: t) ++ fenceMark ++ ws2)).take fenceMark.length
            = fenceMark := by
          rw [hst]
          intro h
          rw [show (c :: t) ++ fenceMark ++ ws2 = c :: (t ++ fenceMark ++ ws2) from by simp] at h
          rw [show fenceMark.length = 3 from rfl,
            show (c :: (t ++ fenceMark ++ ws2)).take 3
              = c :: (t ++ fenceMark ++ ws2).take 2 from rfl, fenceMark_eq] at h
          injection h with h1 _
          exact hc.2 h1
        rw [removePre_of_strip_ne _ _ hne, hst]
        exact removeSuffix_of _ _ _ (stripTrailing_fence_ws _ _ hws2)
  · intro hjson
    have hstrip : stripLeading (ws1 ++ fenceMark ++ s ++ fenceMark ++ ws2)
        = fenceMark ++ (s ++ fenceMark ++ ws2) := by
      have hassoc : ws1 ++ fenceMark ++ s ++ fenceMark ++ ws2
          = ws1 ++ (fenceMark ++ (s ++ fenceMark ++ ws2)) := by
        simp [List.append_assoc]
      rw [hassoc, stripLeading_append_ws _ _ hws1, stripLeading_fenceMark_append]
    have hne : ¬ (stripLeading (ws1 ++ fenceMark ++ s ++ fenceMark ++ ws2)).take
        fenceMarkJson.length = fenceMarkJson := by
      rw [hstrip]
      intro h
      rw [fenceMarkJson_eq,
        show (fenceMark ++ ("json").toList).length = fenceMark.length + 4 from rfl,
        take_len_add_append] at h
      have h4 : (s ++ fenceMark ++ ws2).take 4 = ("json").toList := by
        have := h
        rwa [List.append_cancel_left_eq] at this
      exact hjson (take4_append_fence _ _ h4)
    rw [cleanJSONResponse, removePre_of_strip_ne _ _ hne, hstrip]
    rw [removePre_of_strip_eq _ _ _ (stripLeading_fenceMark_append (s ++ fenceMark ++ ws2))]
    exact removeSuffix_of _ _ _ (stripTrailing_fence_ws _ _ hws2)

/-- Witness for the amended C3 at a concrete payload and whitespace. -/
theorem clean_roundtrip_amended_witness :
    cleanJSONResponse ((" ").toList ++ fenceMarkJson ++ ("hi").toList ++ fenceMark ++ ("\n").toList)
        = ("hi").toList
      ∧ cleanJSONResponse ((" ").toList ++ fenceMark ++ ("hi").toList ++ fenceMark ++ ("\n").toList)
          = ("hi").toList :=
  ⟨(clean_roundtrip_amended (("hi").toList) ((" ").toList) (("\n").toList)
      (by decide) (by decide)).1 (by decide),
    (clean_roundtrip_amended (("hi").toList) ((" ").toList) (("\n").toList)
      (by decide) (by decide)).2 (by decide)⟩

/-- Model of Go strconv.Atoi digit accumulation for an all-digit string. -/
def natFromDigits (ds : List Char) : Option Nat :=
  if ds ≠ [] ∧ ds.all Char.isDigit then
    some (ds.foldl (fun a c => a * 10 + (c.toNat - 48)) 0)
  else none

/-- Model of Go strconv.Atoi: optional sign, at least one decimal digit,
nothing else, and the value must fit a 64-bit signed int; every other
input is a parse failure. -/
def parseAtoi (s : String) : Option Int :=
  match s.toList with
  | '+' :: ds =>
      match natFromDigits ds with
      | some n => if (n : Int) ≤ 2 ^ 63 - 1 then some (n : Int) else none
      | none => none
  | '-' :: ds =>
      match natFromDigits ds with
      | some n => if (n : Int) ≤ 2 ^ 63 then some (-(n : Int)) else none
      | none => none
  | ds =>
      match natFromDigits ds with
      | some n => if (n : Int) ≤ 2 ^ 63 - 1 then some (n : Int) else none
      | none => none

/-- The header scan of ParseCSV: Go fills a map with colIndex[col] = i for
each header cell in order, so a later duplicate column overwrites an
earlier one. -/
def colScan (name : String) : Nat → Option Nat → List String → Option Nat
  | _, acc, [] => acc
  | i, acc, col :: rest => colScan name (i + 1) (if col = name then some i else acc) rest

/-- Index of the column of the given name in the header (last occurrence
wins), as looked up in the Go colIndex map. -/
def colIndexOf (header : List String) (name : String) : Option Nat :=
  colScan name 0 none header

/-- One guarded field access of ParseCSV: the value at the named column if
the column exists in the header and its index is within the record. -/
def lookupField (header record : List String) (name : String) : Option String :=
  match colIndexOf header name with
  | some idx => record.get? idx
  | none => none

/-- The per-record body of the ParseCSV loop: build a Review from the
recognized columns, leaving absent or out-of-range fields at their zero
value, and silently falling back to rating 0 on an Atoi failure. -/
def rowToReview (header record : List String) : Review :=
  { id := (lookupField header record "id").getD ""
    date := (lookupField header record "date").getD ""
    userId := (lookupField header record "user_id").getD ""
    reviewText := (lookupField header record "review_text").getD ""
    rating :=
      match lookupField header record "rating" with
      | some v =>
          match parseAtoi v with
          | some n => n
          | none => 0
      | none => 0
    source := (lookupField header record "source").getD "" }

/-- Parse failures of ParseCSV: reading the header from an empty stream
("failed to read CSV header"), or a record read error at a 1-based line
number ("error reading line %d"). -/
inductive ParseError where
  | headerRead
  | lineRead (lineNum : Nat)
  deriving Repr, DecidableEq

/-- The record loop of ParseCSV. The Go encoding/csv reader is modelled as
yielding the stream's rows as field lists; per its documented contract it
fails a record whose field count differs from the first record read (the
header), which the Go loop turns into an error naming the current 1-based
line (lineNum starts at 1 and is incremented before each read). -/
def parseRows (header : List String) (lineNum : Nat) : List (List String) → Except ParseError (List Review)
  | [] => Except.ok []
  | record :: rest =>
      if record.length ≠ header.length then Except.error (ParseError.lineRead (lineNum + 1))
      else
        match parseRows header (lineNum + 1) rest with
        | Except.ok reviews => Except.ok (rowToReview header record :: reviews)
        | Except.error e => Except.error e

/-- ParseCSV from the Go source over the abstracted row stream: the first
row is the header (its absence is the header read failure), the remaining
rows become Review records in order. -/
def ParseCSV (rows : List (List String)) : Except ParseError (List Review) :=
  match rows with
  | [] => Except.error ParseError.headerRead
  | header :: rest => parseRows header 1 rest

lemma parseRows_ok (header : List String) (rows : List (List String)) (n : Nat)
    (hw : ∀ r ∈ rows, r.length = header.length) :
    parseRows header n rows = Except.ok (rows.map (rowToReview header)) := by
  induction rows generalizing n with
  | nil => rfl
  | cons record rest ih =>
      have hrec : record.length = header.length := hw record (by simp)
      have hrest : ∀ r ∈ rest, r.length = header.length := fun r hr => hw r (by simp [hr])
      simp [parseRows, hrec, ih (n + 1) hrest]

lemma parseRows_err (header : List String) (good : List (List String))
    (bad : List String) (rest : List (List String)) (n : Nat)
    (hg : ∀ r ∈ good, r.length = header.length) (hb : bad.length ≠ header.length) :
    parseRows header n (good ++ bad :: rest) = Except.error (ParseError.lineRead (n + good.length + 1)) := by
  induction good generalizing n with
  | nil => simp [parseRows, hb]
  | cons record rest' ih =>
      have hrec : record.length = header.length := hg record (by simp)
      have hrest : ∀ r ∈ rest', r.length = header.length := fun r hr => hg r (by simp [hr])
      have hstep : parseRows header (n + 1) (rest' ++ bad :: rest)
          = Except.error (ParseError.lineRead (n + (rest'.length + 1) + 1)) := by
        rw [ih (n + 1) hrest]
        congr 2
        omega
      simp [parseRows, hrec, List.append_eq, hstep]

/-- C5: for every valid header and N well-formed data rows, ParseCSV
succeeds and produces exactly the N canonical records, in row order. -/
theorem parseCSV_count_order (header : List String) (rows : List (List String))
    (hw : ∀ r ∈ rows, r.length = header.length) :
    ParseCSV (header :: rows) = Except.ok (rows.map (rowToReview header))
      ∧ (rows.map (rowToReview header)).length = rows.length := by
  refine ⟨?_, by simp⟩
  show parseRows header 1 rows = _
  exact parseRows_ok header rows 1 hw

/-- Witness for C5 at a concrete two-row input. -/
theorem parseCSV_count_order_witness :
    ParseCSV [["id", "rating"], ["a", "5"], ["b", "x"]]
        = Except.ok ([["a", "5"], ["b", "x"]].map (rowToReview ["id", "rating"]))
      ∧ ([["a", "5"], ["b", "x"]].map (rowToReview ["id", "rating"])).length = 2 :=
  parseCSV_count_order ["id", "rating"] [["a", "5"], ["b", "x"]] (by decide)

/-- C6: a header-only stream parses to the empty sequence without error; a
truly empty stream fails on the header read; a first column-count-mismatch
data row fails the whole parse, naming its 1-based line number. -/
theorem parseCSV_errors (header : List String) (good : List (List String))
    (bad : List String) (rest : List (List String))
    (hg : ∀ r ∈ good, r.length = header.length) (hb : bad.length ≠ header.length) :
    ParseCSV [header] = Except.ok []
      ∧ ParseCSV [] = Except.error ParseError.headerRead
      ∧ ParseCSV (header :: (good ++ bad :: rest))
          = Except.error (ParseError.lineRead (good.length + 2)) := by
  refine ⟨rfl, rfl, ?_⟩
  show parseRows header 1 (good ++ bad :: rest) = _
  rw [parseRows_err header good bad rest 1 hg hb]
  congr 1
  congr 1
  omega

/-- Witness for C6: mismatched second data row reported as line 3. -/
theorem parseCSV_errors_witness :
    ParseCSV [["id", "rating"]] = Except.ok []
      ∧ ParseCSV [] = Except.error ParseError.headerRead
      ∧ ParseCSV [["id", "rating"], ["a", "5"], ["too", "many", "cols"]]
          = Except.error (ParseError.lineRead 3) := by
  have := parseCSV_errors ["id", "rating"] [["a", "5"]] ["too", "many", "cols"] []
    (by decide) (by decide)
  simpa using this

lemma colScan_lt (name : String) (l : List String) : ∀ (k : Nat) (acc : Option Nat) (i : Nat),
    (∀ j, acc = some j → j < k) → colScan name k acc l = some i → i < k + l.length := by
  induction l with
  | nil =>
      intro k acc i hacc h
      have := hacc i h
      simpa using this
  | cons col rest ih =>
      intro k acc i hacc h
      simp only [colScan] at h
      have hacc' : ∀ j, (if col = name then some k else acc) = some j → j < k + 1 := by
        intro j hj
        by_cases hc : col = name
        · rw [if_pos hc] at hj
          injection hj with hj
          omega
        · rw [if_neg hc] at hj
          exact Nat.lt_succ_of_lt (hacc j hj)
      have := ih (k + 1) _ i hacc' h
      simp only [List.length_cons]
      omega

lemma colIndexOf_lt (header : List String) (name : String) (i : Nat)
    (h : colIndexOf header name = some i) : i < header.length := by
  have := colScan_lt name header 0 none i (by intro j hj; simp at hj) h
  simpa using this

lemma colScan_append (name : String) (l1 l2 : List String) (k : Nat) (acc : Option Nat) :
    colScan name k acc (l1 ++ l2) = colScan name (k + l1.length) (colScan name k acc l1) l2 := by
  induction l1 generalizing k acc with
  | nil => simp [colScan]
  | cons c rest ih =>
      simp only [List.cons_append, colScan, List.length_cons, List.append_eq]
      rw [ih]
      congr 1
      omega

lemma colIndexOf_append_ne (header : List String) (x name : String) (h : x ≠ name) :
    colIndexOf (header ++ [x]) name = colIndexOf header name := by
  unfold colIndexOf
  rw [colScan_append]
  simp [colScan, h]

lemma get?_append_lt (l1 l2 : List String) (i : Nat) (h : i < l1.length) :
    (l1 ++ l2).get? i = l1.get? i := by
  induction l1 generalizing i with
  | nil => simp at h
  | cons a t ih =>
      cases i with
      | zero => rfl
      | succ j =>
          have hj : j < t.length := by
            simp only [List.length_cons] at h
            omega
          simpa using ih j hj

lemma lookupField_append_unknown (header record : List String)
    (hlen : record.length = header.length) (x v fld : String) (h : x ≠ fld) :
    lookupField (header ++ [x]) (record ++ [v]) fld = lookupField header record fld := by
  unfold lookupField
  rw [colIndexOf_append_ne header x fld h]
  cases hidx : colIndexOf header fld with
  | none => rfl
  | some i =>
      have hi : i < record.length := by
        rw [hlen]
        exact colIndexOf_lt header fld i hidx
      exact get?_append_lt record [v] i hi

/-- C7: a recognized column absent from the header leaves the field at its
zero value; an unparsable rating degrades to 0 without aborting the row;
recognized in-range columns are copied verbatim; an unknown column in a
width-consistent row changes nothing. -/
theorem parseRow_fields_spec (header record : List String) :
    ((colIndexOf header "id" = none → (rowToReview header record).id = "")
      ∧ (colIndexOf header "date" = none → (rowToReview header record).date = "")
      ∧ (colIndexOf header "user_id" = none → (rowToReview header record).userId = "")
      ∧ (colIndexOf header "review_text" = none → (rowToReview header record).reviewText = "")
      ∧ (colIndexOf header "rating" = none → (rowToReview header record).rating = 0)
      ∧ (colIndexOf header "source" = none → (rowToReview header record).source = ""))
    ∧ (∀ i v, colIndexOf header "rating" = some i → record.get? i = some v →
        parseAtoi v = none → (rowToReview header record).rating = 0)
    ∧ ((∀ i v, colIndexOf header "id" = some i → record.get? i = some v →
          (rowToReview header record).id = v)
      ∧ (∀ i v, colIndexOf header "date" = some i → record.get? i = some v →
          (rowToReview header record).date = v)
      ∧ (∀ i v, colIndexOf header "user_id" = some i → record.get? i = some v →
          (rowToReview header record).userId = v)
      ∧ (∀ i v, colIndexOf header "review_text" = some i → record.get? i = some v →
          (rowToReview header record).reviewText = v)
      ∧ (∀ i v, colIndexOf header "source" = some i → record.get? i = some v →
          (rowToReview header record).source = v))
    ∧ (∀ name v, record.length = header.length →
        name ∉ (["id", "date", "user_id", "review_text", "rating", "source"] : List String) →
        rowToReview (header ++ [name]) (record ++ [v]) = rowToReview header record) := by
  refine ⟨⟨?_, ?_, ?_, ?_, ?_, ?_⟩, ?_, ⟨?_, ?_, ?_, ?_, ?_⟩, ?_⟩
  · intro h
    simp [rowToReview, lookupField, h]
  · intro h
    simp [rowToReview, lookupField, h]
  · intro h
    simp [rowToReview, lookupField, h]
  · intro h
    simp [rowToReview, lookupField, h]
  · intro h
    simp [rowToReview, lookupField, h]
  · intro h
    simp [rowToReview, lookupField, h]
  · intro i v hi hv hp
    simp only [List.get?_eq_getElem?] at hv
    simp [rowToReview, lookupField, hi, hv, hp]
  · intro i v hi hv
    simp only [List.get?_eq_getElem?] at hv
    simp [rowToReview, lookupField, hi, hv]
  · intro i v hi hv
    simp only [List.get?_eq_getElem?] at hv
    simp [rowToReview, lookupField, hi, hv]
  · intro i v hi hv
    simp only [List.get?_eq_getElem?] at hv
    simp [rowToReview, lookupField, hi, hv]
  · intro i v hi hv
    simp only [List.get?_eq_getElem?] at hv
    simp [rowToReview, lookupField, hi, hv]
  · intro i v hi hv
    simp only [List.get?_eq_getElem?] at hv
    simp [rowToReview, lookupField, hi, hv]
  · intro name v hlen hnot
    have hid : name ≠ "id" := by intro he; exact hnot (by simp [he])
    have hdate : name ≠ "date" := by intro he; exact hnot (by simp [he])
    have huser : name ≠ "user_id" := by intro he; exact hnot (by simp [he])
    have htext : name ≠ "review_text" := by intro he; exact hnot (by simp [he])
    have hrat : name ≠ "rating" := by intro he; exact hnot (by simp [he])
    have hsrc : name ≠ "source" := by intro he; exact hnot (by simp [he])
    simp [rowToReview,
      lookupField_append_unknown header record hlen name v "id" hid,
      lookupField_append_unknown header record hlen name v "date" hdate,
      lookupField_append_unknown header record hlen name v "user_id" huser,
      lookupField_append_unknown header record hlen name v "review_text" htext,
      lookupField_append_unknown header record hlen name v "rating" hrat,
      lookupField_append_unknown header record hlen name v "source" hsrc]

/-- Witness for C7 at a concrete header and record. -/
theorem parseRow_fields_spec_witness :
    (rowToReview ["id", "rating"] ["a", "bad"]).date = ""
      ∧ (rowToReview ["id", "rating"] ["a", "bad"]).rating = 0
      ∧ (rowToReview ["id", "rating"] ["a", "bad"]).id = "a"
      ∧ rowToReview (["id", "rating"] ++ ["extra"]) (["a", "bad"] ++ ["z"])
          = rowToReview ["id", "rating"] ["a", "bad"] :=
  ⟨(parseRow_fields_spec ["id", "rating"] ["a", "bad"]).1.2.1 (by decide),
    (parseRow_fields_spec ["id", "rating"] ["a", "bad"]).2.1 1 "bad"
      (by decide) (by decide) (by decide),
    (parseRow_fields_spec ["id", "rating"] ["a", "bad"]).2.2.1.1 0 "a"
      (by decide) (by decide),
    (parseRow_fields_spec ["id", "rating"] ["a", "bad"]).2.2.2 "extra" "z"
      (by decide) (by decide)⟩

/-- Gateway failures of gemini.go, in code order: transport/request
failure, non-200 HTTP status with body, provider error payload, empty
choices list, and a JSON shape mismatch after sanitization (carrying the
sanitized raw text, as the Go error message does). -/
inductive GError where
  | transport (msg : String)
  | apiStatus (status : Nat) (body : String)
  | apiPayload (msg : String)
  | emptyChoices
  | malformedJSON (raw : String)
  deriving Repr, DecidableEq

/-- The reviews block of the sentiment prompt: one line per review with
id, rating and text, accumulated in order. -/
def sentimentsText (reviews : List Review) : String :=
  reviews.foldl
    (fun acc r => acc ++ "ID: " ++ r.id ++ " | Rating: " ++ toString r.rating
      ++ " | Review: " ++ r.reviewText ++ "\n") ""

/-- The sentiment-scoring prompt of AnalyzeSentiments. -/
def sentimentPrompt (reviews : List Review) : String :=
  "Analyze the sentiment of these customer reviews. For each review, classify as \"positive\", \"negative\", or \"neutral\" with a confidence score (0-1).\n\nReviews:\n"
    ++ sentimentsText reviews
    ++ "\n\nRespond ONLY with a valid JSON array in this exact format (no markdown, no explanation):\n[\x7b\"review_id\": \"id\", \"sentiment\": \"positive/negative/neutral\", \"score\": 0.95\x7d]"

/-- formatReviewsForThemes from gemini.go: bulleted review text lines. -/
def formatReviewsForThemes (reviews : List Review) : String :=
  reviews.foldl
    (fun acc r => acc ++ "- " ++ r.reviewText ++ " (Rating: " ++ toString r.rating ++ ")\n") ""

/-- The theme-extraction prompt of ExtractThemes, containing both review
sets. -/
def themesPrompt (preReviews postReviews : List Review) : String :=
  "Analyze and compare themes between pre-launch and post-launch customer reviews.\n\nPRE-LAUNCH REVIEWS:\n"
    ++ formatReviewsForThemes preReviews
    ++ "\n\nPOST-LAUNCH REVIEWS:\n"
    ++ formatReviewsForThemes postReviews
    ++ "\n\nExtract the top 8 themes mentioned across both sets. For each theme, count occurrences in pre and post launch, calculate percentage change, and determine overall sentiment.\n\nRespond ONLY with a valid JSON array in this exact format (no markdown, no explanation):\n[\x7b\"theme\": \"theme name\", \"pre_count\": 5, \"post_count\": 8, \"change_rate\": 60.0, \"sentiment\": \"positive/negative/neutral\"\x7d]"

/-- AnalyzeSentiments from gemini.go. The provider round trip callGroqAPI
is abstracted as the function argument api; json.Unmarshal is abstracted
as the function argument parse; the second component of the result is the
list of prompts actually sent over the network, in order. Empty input
short-circuits before any call. -/
def AnalyzeSentiments (api : String → Except GError String)
    (parse : String → Option (List SentimentResult)) (reviews : List Review) :
    Except GError (List SentimentResult) × List String :=
  if reviews.length = 0 then (Except.ok [], [])
  else
    match api (sentimentPrompt reviews) with
    | Except.error e => (Except.error e, [sentimentPrompt reviews])
    | Except.ok response =>
        match parse ((cleanJSONResponse response.toList).asString) with
        | some results => (Except.ok results, [sentimentPrompt reviews])
        | none => (Except.error (GError.malformedJSON ((cleanJSONResponse response.toList).asString)),
            [sentimentPrompt reviews])

/-- ExtractThemes from gemini.go, abstracted like AnalyzeSentiments; it
has no empty-input guard and always issues its single provider call. -/
def ExtractThemes (api : String → Except GError String)
    (parse : String → Option (List ThemeResult)) (preReviews postReviews : List Review) :
    Except GError (List ThemeResult) × List String :=
  match api (themesPrompt preReviews postReviews) with
  | Except.error e => (Except.error e, [themesPrompt preReviews postReviews])
  | Except.ok response =>
      match parse ((cleanJSONResponse response.toList).asString) with
      | some results => (Except.ok results, [themesPrompt preReviews postReviews])
      | none => (Except.error (GError.malformedJSON ((cleanJSONResponse response.toList).asString)),
          [themesPrompt preReviews postReviews])

/-- C8: on the empty review list, sentiment scoring returns the empty
result set with no error and sends no prompt to the provider. -/
theorem analyzeSentiments_empty (api : String → Except GError String)
    (parse : String → Option (List SentimentResult)) :
    AnalyzeSentiments api parse [] = (Except.ok [], []) :=
  rfl

/-- C10: theme extraction has no empty-input short-circuit: for every pair
of review lists it makes exactly one provider call with the themes prompt,
and a provider failure surfaces even when both lists are empty. -/
theorem extractThemes_no_shortcut (api : String → Except GError String)
    (parse : String → Option (List ThemeResult)) (preReviews postReviews : List Review) :
    (ExtractThemes api parse preReviews postReviews).2 = [themesPrompt preReviews postReviews]
      ∧ (ExtractThemes (fun _ => Except.error (GError.transport "connection refused")) parse [] []).1
          = Except.error (GError.transport "connection refused") := by
  constructor
  · unfold ExtractThemes
    split
    · rfl
    · split
      · rfl
      · rfl
  · rfl

/-- The LLMAnalyzer interface of the orchestrator, with each operation's
outcome explicit. -/
structure LLMAnalyzer where
  analyzeSentiments : List Review → Except GError (List SentimentResult)
  extractThemes : List Review → List Review → Except GError (List ThemeResult)
  generateImpactSummary : ReviewCollection → ReviewCollection → ComparisonResult → Except GError ImpactSummary

/-- An orchestration error: the stage's wrapping message together with the
gateway's underlying error, carried unchanged (Go fmt.Errorf with %w). -/
structure OrchError where
  stage : String
  cause : GError
  deriving Repr, DecidableEq

/-- Analyze from the Go source (DefaultAnalysisService): strictly
sequential stages, each gateway failure wrapped with its stage name and
returned with no result; time.Now is made explicit as the argument now. -/
def Analyze (llm : LLMAnalyzer) (preReviews postReviews : List Review) (now : String) :
    Except OrchError AnalysisResult :=
  let preCollection : ReviewCollection :=
    { reviews := preReviews, type := "pre_launch", count := (preReviews.length : Int) }
  let postCollection : ReviewCollection :=
    { reviews := postReviews, type := "post_launch", count := (postReviews.length : Int) }
  match llm.analyzeSentiments preReviews with
  | Except.error e => Except.error { stage := "failed to analyze pre-launch sentiments", cause := e }
  | Except.ok preSentiments =>
      match llm.analyzeSentiments postReviews with
      | Except.error e => Except.error { stage := "failed to analyze post-launch sentiments", cause := e }
      | Except.ok postSentiments =>
          let preSummary := calculateSentimentSummary preSentiments preReviews
          let postSummary := calculateSentimentSummary postSentiments postReviews
          match llm.extractThemes preReviews postReviews with
          | Except.error e => Except.error { stage := "failed to extract themes", cause := e }
          | Except.ok themes =>
              let comparison : ComparisonResult :=
                { preLaunchSentiment := preSummary, postLaunchSentiment := postSummary,
                  sentimentShift := calculateSentimentShift preSummary postSummary,
                  themes := themes }
              match llm.generateImpactSummary preCollection postCollection comparison with
              | Except.error e => Except.error { stage := "failed to generate impact summary", cause := e }
              | Except.ok impact =>
                  Except.ok
                    { preLaunchReviews := preCollection, postLaunchReviews := postCollection,
                      comparison := comparison, impact := impact, analyzedAt := now }

/-- C4: a failure of any gateway stage yields no AnalysisResult, only an
error wrapping the stage's name around the gateway error, which is
preserved unchanged with all its context. -/
theorem analyze_stage_failure (llm : LLMAnalyzer) (preReviews postReviews : List Review) (now : String) :
    (∀ e, llm.analyzeSentiments preReviews = Except.error e →
        Analyze llm preReviews postReviews now
          = Except.error { stage := "failed to analyze pre-launch sentiments", cause := e })
      ∧ (∀ preS e, llm.analyzeSentiments preReviews = Except.ok preS →
          llm.analyzeSentiments postReviews = Except.error e →
          Analyze llm preReviews postReviews now
            = Except.error { stage := "failed to analyze post-launch sentiments", cause := e })
      ∧ (∀ preS postS e, llm.analyzeSentiments preReviews = Except.ok preS →
          llm.analyzeSentiments postReviews = Except.ok postS →
          llm.extractThemes preReviews postReviews = Except.error e →
          Analyze llm preReviews postReviews now
            = Except.error { stage := "failed to extract themes", cause := e })
      ∧ (∀ preS postS themes e, llm.analyzeSentiments preReviews = Except.ok preS →
          llm.analyzeSentiments postReviews = Except.ok postS →
          llm.extractThemes preReviews postReviews = Except.ok themes →
          llm.generateImpactSummary
              { reviews := preReviews, type := "pre_launch", count := (preReviews.length : Int) }
              { reviews := postReviews, type := "post_launch", count := (postReviews.length : Int) }
              { preLaunchSentiment := calculateSentimentSummary preS preReviews,
                postLaunchSentiment := calculateSentimentSummary postS postReviews,
                sentimentShift := calculateSentimentShift (calculateSentimentSummary preS preReviews)
                  (calculateSentimentSummary postS postReviews),
                themes := themes } = Except.error e →
          Analyze llm preReviews postReviews now
            = Except.error { stage := "failed to generate impact summary", cause := e }) := by
  refine ⟨?_, ?_, ?_, ?_⟩
  · intro e h
    simp [Analyze, h]
  · intro preS e h1 h2
    simp [Analyze, h1, h2]
  · intro preS postS e h1 h2 h3
    simp [Analyze, h1, h2, h3]
  · intro preS postS themes e h1 h2 h3 h4
    simp [Analyze, h1, h2, h3, h4]

/-- A concrete review used by the orchestrator witness stubs. -/
def sampleReview : Review :=
  { id := "1", date := "2024-01-01", userId := "u1", reviewText := "good", rating := 5, source := "store" }

/-- A concrete impact summary used by the orchestrator witness stubs. -/
def sampleImpact : ImpactSummary :=
  { overallSuccess := true, successScore := 75, keyImprovements := [], criticalIssues := [],
    recommendations := [], executiveSummary := "fine" }

/-- Stub gateway failing at the pre-launch sentiment stage. -/
def stubFailPre : LLMAnalyzer :=
  { analyzeSentiments := fun _ => Except.error (GError.malformedJSON "not json"),
    extractThemes := fun _ _ => Except.ok [],
    generateImpactSummary := fun _ _ _ => Except.ok sampleImpact }

/-- Stub gateway failing at the post-launch sentiment stage only (the
post-launch list is the non-empty one). -/
def stubFailPost : LLMAnalyzer :=
  { analyzeSentiments := fun rs => if rs.length = 0 then Except.ok [] else Except.error GError.emptyChoices,
    extractThemes := fun _ _ => Except.ok [],
    generateImpactSummary := fun _ _ _ => Except.ok sampleImpact }

/-- Stub gateway failing at the theme-extraction stage. -/
def stubFailThemes : LLMAnalyzer :=
  { analyzeSentiments := fun _ => Except.ok [],
    extractThemes := fun _ _ => Except.error (GError.apiPayload "quota"),
    generateImpactSummary := fun _ _ _ => Except.ok sampleImpact }

/-- Stub gateway failing at the impact-summary stage. -/
def stubFailImpact : LLMAnalyzer :=
  { analyzeSentiments := fun _ => Except.ok [],
    extractThemes := fun _ _ => Except.ok [],
    generateImpactSummary := fun _ _ _ => Except.error (GError.transport "timeout") }

/-- Witness for C4: each of the four stages observed failing concretely. -/
theorem analyze_stage_failure_witness :
    Analyze stubFailPre [] [] "t"
        = Except.error
            { stage := "failed to analyze pre-launch sentiments",
              cause := GError.malformedJSON "not json" }
      ∧ Analyze stubFailPost [] [sampleReview] "t"
          = Except.error
              { stage := "failed to analyze post-launch sentiments",
                cause := GError.emptyChoices }
      ∧ Analyze stubFailThemes [] [] "t"
          = Except.error { stage := "failed to extract themes", cause := GError.apiPayload "quota" }
      ∧ Analyze stubFailImpact [] [] "t"
          = Except.error
              { stage := "failed to generate impact summary",
                cause := GError.transport "timeout" } :=
  ⟨(analyze_stage_failure stubFailPre [] [] "t").1 (GError.malformedJSON "not json") rfl,
    (analyze_stage_failure stubFailPost [] [sampleReview] "t").2.1 [] GError.emptyChoices rfl rfl,
    (analyze_stage_failure stubFailThemes [] [] "t").2.2.1 [] [] (GError.apiPayload "quota")
      rfl rfl rfl,
    (analyze_stage_failure stubFailImpact [] [] "t").2.2.2 [] [] [] (GError.transport "timeout")
      rfl rfl rfl rfl⟩
